import Mathlib

/-!
Shallow embedding of the timing-reconciliation and scene-composition engine
of `.github/scripts/create_video.py` and of the sync classifier of
`.github/scripts/validate_duration.py`.

Durations are modelled as exact rationals (`ℚ`); the Python scripts compute
with floats, and the claims under study are about the exact arithmetic of
the algorithms (proportional scaling, equal splits, tolerance checks), so
the rational model is the faithful idealisation. Python string truthiness
(`if hook:`) is modelled as `≠ ""`; `str.split()` with no argument is
modelled by splitting on whitespace and discarding empty pieces.
-/

/-- Helper for `numWords`: walk the characters counting maximal runs of
non-whitespace characters; the flag records whether the walk currently
stands inside such a run. -/
def numWordsAux : Bool → List Char → Nat
  | _, [] => 0
  | inWord, c :: rest =>
    if c.isWhitespace then numWordsAux false rest
    else (if inWord then 0 else 1) + numWordsAux true rest

/-- Word count of a text, as Python `len(text.split())`: the number of
maximal runs of non-whitespace characters. -/
def numWords (text : String) : Nat := numWordsAux false text.toList

/-- Python `not text.strip()`: the text contains only whitespace (or is
empty). -/
def isBlank (text : String) : Bool := text.toList.all Char.isWhitespace

/-- The script data consumed by create_video.py: a hook, a list of bullet
texts, and a call-to-action (lines 88-91 of create_video.py). -/
structure Script where
  hook : String
  bullets : List String
  cta : String
deriving DecidableEq, Repr

/-- The list `all_text = [hook] + bullets + [cta]` built at lines 791, 802,
813 of create_video.py. -/
def allText (s : Script) : List String := s.hook :: (s.bullets ++ [s.cta])

/-- Fallback per-section duration estimation, from create_video.py lines
153-165 (`estimate_duration_fallback`): 3.0 s for empty text or an empty
part list; an equal share when the total word count is zero; otherwise the
word-proportional share floored at 2.0 s. -/
def estimate_duration_fallback (text : String) (audio_duration : ℚ)
    (all_text_parts : List String) : ℚ :=
  if text = "" ∨ all_text_parts = [] then 3
  else
    let words_this_section : ℚ := (numWords text : ℚ)
    let total_words : ℚ :=
      ((((all_text_parts.filter (fun t => t ≠ "")).map numWords).sum : ℕ) : ℚ)
    if total_words = 0 then audio_duration / ((max 1 all_text_parts.length : ℕ) : ℚ)
    else max 2 (words_this_section / total_words * audio_duration)

/-- One entry of the optional timing metadata (`audio_timing.json`
sections), create_video.py lines 141-150. -/
structure TimingSection where
  name : String
  duration : ℚ
deriving DecidableEq, Repr

/-- Lookup of a section's measured duration by name, as the generator
expression `next((s for s in sections if s['name'] == name), None)` at
create_video.py lines 786, 796, 808. -/
def findSection (sections : List TimingSection) (nm : String) : Option ℚ :=
  (sections.find? fun s => s.name = nm).map TimingSection.duration

/-- The per-section durations held in the module-level variables
`hook_dur`, `bullet_durs`, `cta_dur` of create_video.py. -/
structure Timings where
  hook_dur : ℚ
  bullet_durs : List ℚ
  cta_dur : ℚ
deriving DecidableEq, Repr

/-- The sum `hook_dur + sum(bullet_durs) + cta_dur` (create_video.py line
817 and line 865). -/
def totalTimings (t : Timings) : ℚ := t.hook_dur + t.bullet_durs.sum + t.cta_dur

/-- Raw duration resolution on the optimized-metadata path, create_video.py
lines 781-816: a metadata entry if one exists for the section's name,
otherwise the fallback estimator; an empty hook or cta keeps the 0.0
initialisation because of the `if hook:` / `if cta:` guards. -/
def resolveTimingsOpt (s : Script) (duration : ℚ) (sections : List TimingSection) :
    Timings where
  hook_dur :=
    if s.hook = "" then 0
    else
      match findSection sections "hook" with
      | some d => d
      | none => estimate_duration_fallback s.hook duration (allText s)
  bullet_durs := s.bullets.enum.map fun p =>
    match findSection sections ("bullet_" ++ toString p.1) with
    | some d => d
    | none => estimate_duration_fallback p.2 duration (allText s)
  cta_dur :=
    if s.cta = "" then 0
    else
      match findSection sections "cta" with
      | some d => d
      | none => estimate_duration_fallback s.cta duration (allText s)

/-- Proportional adjustment, create_video.py lines 819-831: when the raw
total differs from the audio duration by more than 0.5 s, every raw
duration is multiplied by `duration / total`; otherwise the raw durations
are kept unchanged. -/
def adjustTimings (t : Timings) (duration : ℚ) : Timings :=
  if 1/2 < |totalTimings t - duration| then
    let f := duration / totalTimings t
    ⟨t.hook_dur * f, t.bullet_durs.map (fun d => d * f), t.cta_dur * f⟩
  else t

/-- Words-per-minute estimate `(words / 110) * 60.0`, create_video.py lines
836-838 (`estimate_duration`). -/
def estimate_duration (text : String) : ℚ := (numWords text : ℚ) / 110 * 60

/-- The raw estimated total `total_est` of the no-metadata branch,
create_video.py line 844. -/
def totalEst (s : Script) : ℚ :=
  (if s.hook = "" then 0 else estimate_duration s.hook)
    + (s.bullets.map estimate_duration).sum
    + (if s.cta = "" then 0 else estimate_duration s.cta)

/-- The no-metadata estimation branch, create_video.py lines 840-855:
word-proportional scaling to the audio duration when the estimated total is
positive, otherwise an equal split `duration / max(1, len(bullets) + 2)`
assigned to the hook, every bullet, and the cta. -/
def estimateTimings (s : Script) (duration : ℚ) : Timings :=
  let hook_est := if s.hook = "" then 0 else estimate_duration s.hook
  let bullets_est := s.bullets.map estimate_duration
  let cta_est := if s.cta = "" then 0 else estimate_duration s.cta
  if 0 < totalEst s then
    let scale := duration / totalEst s
    ⟨hook_est * scale, bullets_est.map (fun b => b * scale), cta_est * scale⟩
  else
    let equal := duration / ((max 1 (s.bullets.length + 2) : ℕ) : ℚ)
    ⟨equal, List.replicate s.bullets.length equal, equal⟩

/-- The whole timing reconciliation of create_video.py lines 774-855: the
adjusted optimized-metadata resolution when `audio_timing.json` is present
and marked optimized, else the estimation branch. -/
def reconcileTimings (s : Script) (duration : ℚ)
    (timing : Option (List TimingSection)) : Timings :=
  match timing with
  | some sections => adjustTimings (resolveTimingsOpt s duration sections) duration
  | none => estimateTimings s duration

/-- The kinds of MoviePy clips appended by the composition loop. -/
inductive LayerKind
  | bgImage
  | bgColor
  | textOverlay
deriving DecidableEq, Repr

/-- One clip of the composition, with its start, duration and cross-fade
lengths (0 models the absence of a CrossFade effect). -/
structure Layer where
  kind : LayerKind
  start : ℚ
  duration : ℚ
  fadeIn : ℚ
  fadeOut : ℚ
deriving DecidableEq, Repr

/-- Scene creation, create_video.py lines 970-1031 (`create_scene`): a
background layer - an ImageClip with CrossFadeIn(0.3) and CrossFadeOut(0.3)
when the image exists, otherwise a ColorClip with no fade effects - plus,
when the text is non-empty, a TextClip with the same 0.3 s fades. -/
def create_scene (imageExists : Bool) (text : String) (duration start_time : ℚ) :
    List Layer :=
  let bg : Layer :=
    if imageExists then ⟨.bgImage, start_time, duration, 3/10, 3/10⟩
    else ⟨.bgColor, start_time, duration, 0, 0⟩
  bg :: (if text = "" then [] else [⟨.textOverlay, start_time, duration, 3/10, 3/10⟩])

/-- Body of the bullet composition loop, create_video.py lines 1043-1065:
a whitespace-only bullet yields a single ColorClip placeholder spanning its
duration; any other bullet yields the `create_scene` layers; in both cases
`current_time` advances by exactly the bullet's duration. -/
def sceneStep (acc : List Layer × ℚ) (bd : String × ℚ) : List Layer × ℚ :=
  if isBlank bd.1 then
    (acc.1 ++ [⟨.bgColor, acc.2, bd.2, 0, 0⟩], acc.2 + bd.2)
  else
    (acc.1 ++ create_scene true bd.1 bd.2 acc.2, acc.2 + bd.2)

/-- The scene-building section of create_video.py lines 1034-1073: the hook
scene is emitted only when the hook text is non-empty (`if hook:`), then
the bullet loop runs, then the cta scene is emitted only when the cta text
is non-empty. Returns the clip list and the final `current_time`. -/
def buildScenes (s : Script) (t : Timings) : List Layer × ℚ :=
  let start :=
    if s.hook = "" then (([] : List Layer), (0 : ℚ))
    else (create_scene true s.hook t.hook_dur 0, t.hook_dur)
  let mid := (s.bullets.zip t.bullet_durs).foldl sceneStep start
  if s.cta = "" then mid
  else (mid.1 ++ create_scene true s.cta t.cta_dur mid.2, mid.2 + t.cta_dur)

/-- Narration audio loading, create_video.py lines 765-770: a missing
voice.mp3 raises FileNotFoundError before any composition; otherwise the
probe returns the audio's duration. -/
def loadAudio (audioFile : Option ℚ) : Except String ℚ :=
  match audioFile with
  | none => Except.error "voice.mp3 missing"
  | some d => Except.ok d

/-- The module-level pipeline order of create_video.py: audio loading
(fatal on a missing asset), then timing reconciliation, then scene
composition. -/
def runPipeline (s : Script) (audioFile : Option ℚ)
    (timing : Option (List TimingSection)) : Except String (List Layer × ℚ) :=
  match loadAudio audioFile with
  | Except.error e => Except.error e
  | Except.ok duration => Except.ok (buildScenes s (reconcileTimings s duration timing))

/-- The warnings/errors lists of the validation report assembled by
validate_duration.py (`validation_report`). -/
structure Report where
  warnings : List String
  errors : List String
deriving DecidableEq, Repr

/-- The audio-sync branch of `validate_video`, validate_duration.py lines
193-212: drift below 0.05 s is labelled PERFECT, below 0.5 s EXCELLENT,
otherwise ACCEPTABLE with a warning appended to the report; the errors list
is never touched by this branch. -/
def audioSyncStep (r : Report) (video_duration audio_duration : ℚ) :
    String × Report :=
  let drift := |video_duration - audio_duration|
  if drift < 1/20 then ("PERFECT", r)
  else if drift < 1/2 then ("EXCELLENT", r)
  else ("ACCEPTABLE", ⟨r.warnings ++ ["Audio/video drift exceeds 500ms"], r.errors⟩)

/-- The return decision of `validate_video`, validate_duration.py lines
307-313: the validation blocks only in strict mode with a non-empty errors
list; warnings alone never block. -/
def validateOk (strict : Bool) (r : Report) : Bool := !(strict && !r.errors.isEmpty)

/-- The SyncReport classification enum of the spec (section 3 and 4.5). -/
inductive SyncClassification
  | PERFECT
  | EXCELLENT
  | DEGRADED
deriving DecidableEq, Repr

/-- Spec-side classification, written from the spec's words for the
refinement comparison: drift < 50 ms is PERFECT, 50 ms <= drift < 500 ms is
EXCELLENT, drift >= 500 ms is DEGRADED (drift given in milliseconds). -/
def specSyncClassification (drift_ms : ℚ) : SyncClassification :=
  if drift_ms < 50 then .PERFECT
  else if drift_ms < 500 then .EXCELLENT
  else .DEGRADED

/-- Drift between realized and narration duration, in milliseconds. -/
def driftMs (video_duration audio_duration : ℚ) : ℚ :=
  |video_duration - audio_duration| * 1000

/-! ### Helper lemmas -/

lemma sum_map_mul (l : List ℚ) (r : ℚ) :
    (l.map fun x => x * r).sum = l.sum * r := by
  induction l with
  | nil => simp
  | cons a t ih => simp [ih, add_mul]

lemma totalEst_eq (s : Script) :
    totalEst s
      = (if s.hook = "" then 0 else estimate_duration s.hook)
        + (s.bullets.map estimate_duration).sum
        + (if s.cta = "" then 0 else estimate_duration s.cta) := rfl

lemma estimateTimings_total (s : Script) (d : ℚ) :
    totalTimings (estimateTimings s d) = d := by
  by_cases h : 0 < totalEst s
  · have hne : totalEst s ≠ 0 := ne_of_gt h
    simp only [estimateTimings, totalTimings, if_pos h, sum_map_mul]
    calc (if s.hook = "" then 0 else estimate_duration s.hook) * (d / totalEst s)
          + (s.bullets.map estimate_duration).sum * (d / totalEst s)
          + (if s.cta = "" then 0 else estimate_duration s.cta) * (d / totalEst s)
        = totalEst s * (d / totalEst s) := by rw [totalEst_eq]; ring
      _ = d := by rw [mul_comm, div_mul_cancel₀ _ hne]
  · have hmax : max 1 (s.bullets.length + 2) = s.bullets.length + 2 :=
      Nat.max_eq_right (by omega)
    have hne : ((s.bullets.length + 2 : ℕ) : ℚ) ≠ 0 := by
      exact_mod_cast Nat.succ_ne_zero (s.bullets.length + 1)
    simp only [estimateTimings, totalTimings, if_neg h, hmax, List.sum_replicate,
      nsmul_eq_mul]
    field_simp
    ring

lemma sceneStep_time (acc : List Layer × ℚ) (bd : String × ℚ) :
    (sceneStep acc bd).2 = acc.2 + bd.2 := by
  unfold sceneStep
  by_cases h : isBlank bd.1 <;> simp [h]

lemma foldl_sceneStep_time (l : List (String × ℚ)) :
    ∀ clips : List Layer, ∀ cur : ℚ,
      ((l.foldl sceneStep (clips, cur)).2 = cur + (l.map Prod.snd).sum) := by
  induction l with
  | nil => intro clips cur; simp
  | cons hd tl ih =>
    intro clips cur
    have hstep : sceneStep (clips, cur) hd
        = ((sceneStep (clips, cur) hd).1, cur + hd.2) := by
      have := sceneStep_time (clips, cur) hd
      cases hrw : sceneStep (clips, cur) hd
      simp_all
    rw [List.foldl_cons, hstep, ih]
    simp [add_assoc]

lemma zip_replicate_snd (l : List String) (x : ℚ) :
    ((l.zip (List.replicate l.length x)).map Prod.snd) = List.replicate l.length x := by
  induction l with
  | nil => simp
  | cons a t ih => simp [List.replicate_succ, ih]

lemma adjustTimings_of_close (t : Timings) (d : ℚ)
    (h : |totalTimings t - d| ≤ 1/2) : adjustTimings t d = t := by
  unfold adjustTimings
  rw [if_neg (not_lt.mpr h)]

lemma adjustTimings_total (t : Timings) (d : ℚ) (h : totalTimings t ≠ 0) :
    |totalTimings (adjustTimings t d) - d| ≤ 1/2 := by
  unfold adjustTimings
  by_cases hc : 1/2 < |totalTimings t - d|
  · rw [if_pos hc]
    have htot :
        totalTimings ⟨t.hook_dur * (d / totalTimings t),
          t.bullet_durs.map (fun x => x * (d / totalTimings t)),
          t.cta_dur * (d / totalTimings t)⟩ = d := by
      simp only [totalTimings, sum_map_mul]
      calc t.hook_dur * (d / totalTimings t)
            + t.bullet_durs.sum * (d / totalTimings t)
            + t.cta_dur * (d / totalTimings t)
          = totalTimings t * (d / totalTimings t) := by
            simp only [totalTimings]; ring
        _ = d := by rw [mul_comm, div_mul_cancel₀ _ h]
    rw [htot]
    simp
  · rw [if_neg hc]
    exact le_of_not_lt hc

/-! ### Claim theorems -/

/-- C9: a missing narration audio asset is fatal: the pipeline stops with
the FileNotFoundError of create_video.py lines 765-767, no duration is
fabricated and no scene composition happens. -/
theorem missing_audio_fatal (s : Script) (timing : Option (List TimingSection)) :
    runPipeline s none timing = Except.error "voice.mp3 missing" := rfl

/-- C2 (amended): the no-metadata estimation branch returns one duration
per bullet section and the whole branch output (hook, bullets, cta) sums
exactly to the target audio duration, in both the word-proportional and the
equal-split case. -/
theorem estimation_branch_sums_to_target (s : Script) (d : ℚ) :
    (estimateTimings s d).bullet_durs.length = s.bullets.length
      ∧ totalTimings (estimateTimings s d) = d := by
  constructor
  · by_cases h : 0 < totalEst s <;> simp [estimateTimings, h]
  · exact estimateTimings_total s d

/-- C2 (counterexample): `estimate_duration_fallback` does not return
durations summing to the target: with sections "a" (1 word) and "b c d"
(3 words) and target 4.0 s, the 2.0 s floor lifts the first section's
proportional share 1.0 to 2.0, so the outputs sum to 5, not 4. -/
theorem fallback_durations_not_sum_to_target :
    estimate_duration_fallback "a" 4 ["a", "b c d"]
        + estimate_duration_fallback "b c d" 4 ["a", "b c d"] = 5
      ∧ (5 : ℚ) ≠ 4 := by
  have h1 : estimate_duration_fallback "a" 4 ["a", "b c d"] = 2 := by
    simp +decide [estimate_duration_fallback, numWords, numWordsAux]
  have h2 : estimate_duration_fallback "b c d" 4 ["a", "b c d"] = 3 := by
    simp +decide [estimate_duration_fallback, numWords, numWordsAux]
  rw [h1, h2]
  norm_num

/-- C5 (amended): the compositor loop never skips an entry by duration:
the running time always advances by exactly the entry's duration (no gap,
neighbors unaffected, even for zero or negative durations), and every entry
creates layers: one solid-color placeholder for a whitespace-only bullet,
background plus text layers otherwise, whatever the duration. -/
theorem compositor_never_skips (clips : List Layer) (cur : ℚ) (b : String)
    (d : ℚ) (l : List (String × ℚ)) :
    (sceneStep (clips, cur) (b, d)).2 = cur + d
      ∧ (sceneStep (clips, cur) (b, d)).1.length
          = clips.length + (if isBlank b then 1 else 2)
      ∧ (l.foldl sceneStep (clips, cur)).2 = cur + (l.map Prod.snd).sum := by
  refine ⟨sceneStep_time (clips, cur) (b, d), ?_, foldl_sceneStep_time l clips cur⟩
  by_cases h : isBlank b
  · simp [sceneStep, h]
  · have hne : b ≠ "" := by
      intro he
      subst he
      exact h (by decide)
    simp [sceneStep, h, create_scene, hne]

/-- C5 (counterexample): an entry with duration 0 (hence `duration <= 0`)
and non-empty text is not skipped: the compositor creates two layers
(background image and text overlay) for it. -/
theorem zero_duration_scene_still_creates_layers :
    ((0 : ℚ) ≤ 0) ∧ (sceneStep ([], 0) ("Run", 0)).1.length = 2 := by
  refine ⟨le_refl 0, ?_⟩
  simp +decide [sceneStep, create_scene, isBlank]

/-- C4 (amended): every layer of a scene whose image exists receives the
fixed 0.3 s cross-fade both in and out - including the first scene, the
last scene and scenes shorter than 0.6 s (no side exception, no clamping to
half the duration) - while the background of a color-fallback scene
receives no fade at all. -/
theorem scene_fades_fixed (txt : String) (d st : ℚ) :
    (∀ L : Layer, L ∈ create_scene true txt d st →
        L.fadeIn = 3/10 ∧ L.fadeOut = 3/10)
      ∧ (create_scene false txt d st).head? = some ⟨LayerKind.bgColor, st, d, 0, 0⟩ := by
  constructor
  · intro L hL
    simp only [create_scene] at hL
    by_cases h : txt = ""
    · simp [h] at hL
      subst hL
      exact ⟨rfl, rfl⟩
    · simp [h] at hL
      rcases hL with h1 | h1 <;> (subst h1; exact ⟨rfl, rfl⟩)
  · simp [create_scene]

theorem scene_fades_fixed_witness :
    (Layer.mk LayerKind.bgImage 0 5 (3/10) (3/10)).fadeIn = 3/10
      ∧ (Layer.mk LayerKind.bgImage 0 5 (3/10) (3/10)).fadeOut = 3/10 :=
  (scene_fades_fixed "Go" 5 0).1 (Layer.mk LayerKind.bgImage 0 5 (3/10) (3/10))
    (by simp +decide [create_scene])

/-- C4 (counterexample): a 0.25 s scene with an image still receives the
fixed 0.3 s cross-fade, which exceeds half of the scene's own duration
(0.125 s), so no clamping for very short scenes exists. -/
theorem crossfade_exceeds_half_short_scene :
    (create_scene true "Go" (1/4) 0).head?
        = some ⟨LayerKind.bgImage, 0, 1/4, 3/10, 3/10⟩
      ∧ ((1 : ℚ)/4) / 2 < 3/10 := by
  constructor
  · simp +decide [create_scene]
  · norm_num

/-- C7: when the raw estimated total is 0 (all sections wordless), the
no-metadata branch distributes the narration duration equally over the
N = len(bullets) + 2 sections (hook, bullets, cta): each slice is
duration / N, the slices sum exactly to the duration, and for a nonnegative
duration no slice is negative; `max(1, N)` makes the division safe. -/
theorem estimator_equal_split (s : Script) (d : ℚ)
    (h : totalEst s = 0) (hd : 0 ≤ d) :
    (estimateTimings s d).hook_dur = d / ((s.bullets.length + 2 : ℕ) : ℚ)
      ∧ (estimateTimings s d).bullet_durs
          = List.replicate s.bullets.length (d / ((s.bullets.length + 2 : ℕ) : ℚ))
      ∧ (estimateTimings s d).cta_dur = d / ((s.bullets.length + 2 : ℕ) : ℚ)
      ∧ totalTimings (estimateTimings s d) = d
      ∧ 0 ≤ d / ((s.bullets.length + 2 : ℕ) : ℚ) := by
  have hnot : ¬ 0 < totalEst s := by rw [h]; exact lt_irrefl 0
  have hmax : max 1 (s.bullets.length + 2) = s.bullets.length + 2 :=
    Nat.max_eq_right (by omega)
  refine ⟨?_, ?_, ?_, estimateTimings_total s d, ?_⟩
  · simp [estimateTimings, hnot, hmax]
  · simp [estimateTimings, hnot, hmax]
  · simp [estimateTimings, hnot, hmax]
  · exact div_nonneg hd (by positivity)

theorem estimator_equal_split_witness :
    (estimateTimings ⟨"", ["", ""], ""⟩ 12).hook_dur
        = 12 / (((Script.mk "" ["", ""] "").bullets.length + 2 : ℕ) : ℚ)
      ∧ (estimateTimings ⟨"", ["", ""], ""⟩ 12).bullet_durs
          = List.replicate (Script.mk "" ["", ""] "").bullets.length
              (12 / (((Script.mk "" ["", ""] "").bullets.length + 2 : ℕ) : ℚ))
      ∧ (estimateTimings ⟨"", ["", ""], ""⟩ 12).cta_dur
          = 12 / (((Script.mk "" ["", ""] "").bullets.length + 2 : ℕ) : ℚ)
      ∧ totalTimings (estimateTimings ⟨"", ["", ""], ""⟩ 12) = 12
      ∧ (0:ℚ) ≤ 12 / (((Script.mk "" ["", ""] "").bullets.length + 2 : ℕ) : ℚ) :=
  estimator_equal_split ⟨"", ["", ""], ""⟩ 12
    (by simp +decide [totalEst, estimate_duration, numWords, numWordsAux])
    (by norm_num)

/-- C1 (amended): the reconciled durations always sum exactly to the
narration duration on the no-metadata estimation path; on the
optimized-metadata path the sum is only guaranteed to land within the 0.5 s
adjustment tolerance (a raw total already within 0.5 s is kept unchanged,
and there is no explicit last-entry end assignment), assuming a nonzero raw
total (a zero raw total farther than 0.5 s from the narration duration
makes the Python script divide by zero). -/
theorem reconciler_sum_tolerance (s : Script) (d : ℚ) (secs : List TimingSection)
    (hne : totalTimings (resolveTimingsOpt s d secs) ≠ 0) :
    totalTimings (reconcileTimings s d none) = d
      ∧ |totalTimings (reconcileTimings s d (some secs)) - d| ≤ 1/2 :=
  ⟨estimateTimings_total s d, adjustTimings_total _ d hne⟩

theorem reconciler_sum_tolerance_witness :
    totalTimings (reconcileTimings ⟨"go", ["run"], "win"⟩ 12 none) = 12
      ∧ |totalTimings (reconcileTimings ⟨"go", ["run"], "win"⟩ 12
            (some [⟨"hook", 4⟩, ⟨"bullet_0", 4⟩, ⟨"cta", 43/10⟩])) - 12| ≤ 1/2 :=
  reconciler_sum_tolerance ⟨"go", ["run"], "win"⟩ 12
    [⟨"hook", 4⟩, ⟨"bullet_0", 4⟩, ⟨"cta", 43/10⟩]
    (by
      have h : resolveTimingsOpt ⟨"go", ["run"], "win"⟩ 12
          [⟨"hook", 4⟩, ⟨"bullet_0", 4⟩, ⟨"cta", 43/10⟩] = ⟨4, [4], 43/10⟩ := by
        simp +decide [resolveTimingsOpt, findSection, List.find?, List.enum]
      rw [h]
      norm_num [totalTimings])

/-- C1 (counterexample): measured durations 4 s + 4 s + 4.3 s against a
12 s narration are within the 0.5 s tolerance, so the reconciler keeps them
unchanged and the timeline total is 12.3 s: 300 ms away from the narration
duration, far beyond the claimed 1 ms bound. -/
theorem within_tolerance_total_not_exact :
    |totalTimings (reconcileTimings ⟨"go", ["run"], "win"⟩ 12
        (some [⟨"hook", 4⟩, ⟨"bullet_0", 4⟩, ⟨"cta", 43/10⟩])) - 12| > 1/1000 := by
  have h : resolveTimingsOpt ⟨"go", ["run"], "win"⟩ 12
      [⟨"hook", 4⟩, ⟨"bullet_0", 4⟩, ⟨"cta", 43/10⟩] = ⟨4, [4], 43/10⟩ := by
    simp +decide [resolveTimingsOpt, findSection, List.find?, List.enum]
  have h1 : totalTimings ⟨4, [4], 43/10⟩ = 123/10 := by norm_num [totalTimings]
  have h2 : |(123:ℚ)/10 - 12| = 3/10 := by rw [abs_of_nonneg] <;> norm_num
  show |totalTimings (adjustTimings (resolveTimingsOpt ⟨"go", ["run"], "win"⟩ 12
      [⟨"hook", 4⟩, ⟨"bullet_0", 4⟩, ⟨"cta", 43/10⟩]) 12) - 12| > 1/1000
  rw [h, adjustTimings, h1, h2, if_neg (by norm_num), h1, h2]
  norm_num

/-- C8: when every section has a measured duration in the metadata and the
raw (resolved) total already equals the narration duration, the adjustment
is the identity: the reconciler returns exactly the measured values - the
hook's, the cta's, and each bullet_i entry's measurement - unchanged. -/
theorem measured_values_kept_when_sum_matches (s : Script) (d : ℚ)
    (secs : List TimingSection) (dh dc db : ℚ) (i : ℕ) (b : String)
    (hsum : totalTimings (resolveTimingsOpt s d secs) = d)
    (hh : s.hook ≠ "") (hhf : findSection secs "hook" = some dh)
    (hc : s.cta ≠ "") (hcf : findSection secs "cta" = some dc)
    (hb : s.bullets.get? i = some b)
    (hbf : findSection secs ("bullet_" ++ toString i) = some db) :
    reconcileTimings s d (some secs) = resolveTimingsOpt s d secs
      ∧ (resolveTimingsOpt s d secs).hook_dur = dh
      ∧ (resolveTimingsOpt s d secs).cta_dur = dc
      ∧ (resolveTimingsOpt s d secs).bullet_durs.get? i = some db := by
  refine ⟨?_, ?_, ?_, ?_⟩
  · show adjustTimings (resolveTimingsOpt s d secs) d = _
    apply adjustTimings_of_close
    rw [hsum]
    simp
  · simp [resolveTimingsOpt, hh, hhf]
  · simp [resolveTimingsOpt, hc, hcf]
  · simp only [resolveTimingsOpt]
    rw [List.get?_map, List.get?_enum, hb]
    simp [hbf]

theorem measured_values_kept_when_sum_matches_witness :
    reconcileTimings ⟨"go", ["run"], "win"⟩ 12
          (some [⟨"hook", 4⟩, ⟨"bullet_0", 5⟩, ⟨"cta", 3⟩])
        = resolveTimingsOpt ⟨"go", ["run"], "win"⟩ 12
            [⟨"hook", 4⟩, ⟨"bullet_0", 5⟩, ⟨"cta", 3⟩]
      ∧ (resolveTimingsOpt ⟨"go", ["run"], "win"⟩ 12
          [⟨"hook", 4⟩, ⟨"bullet_0", 5⟩, ⟨"cta", 3⟩]).hook_dur = 4
      ∧ (resolveTimingsOpt ⟨"go", ["run"], "win"⟩ 12
          [⟨"hook", 4⟩, ⟨"bullet_0", 5⟩, ⟨"cta", 3⟩]).cta_dur = 3
      ∧ (resolveTimingsOpt ⟨"go", ["run"], "win"⟩ 12
          [⟨"hook", 4⟩, ⟨"bullet_0", 5⟩, ⟨"cta", 3⟩]).bullet_durs.get? 0 = some 5 :=
  measured_values_kept_when_sum_matches ⟨"go", ["run"], "win"⟩ 12
    [⟨"hook", 4⟩, ⟨"bullet_0", 5⟩, ⟨"cta", 3⟩] 4 3 5 0 "run"
    (by
      have h : resolveTimingsOpt ⟨"go", ["run"], "win"⟩ 12
          [⟨"hook", 4⟩, ⟨"bullet_0", 5⟩, ⟨"cta", 3⟩] = ⟨4, [5], 3⟩ := by
        simp +decide [resolveTimingsOpt, findSection, List.find?, List.enum]
      rw [h]
      norm_num [totalTimings])
    (by decide) (by simp +decide [findSection, List.find?])
    (by decide) (by simp +decide [findSection, List.find?])
    (by decide) (by simp +decide [findSection, List.find?])

lemma buildScenes_time (s : Script) (t : Timings) :
    (buildScenes s t).2
      = (if s.hook = "" then 0 else t.hook_dur)
        + ((s.bullets.zip t.bullet_durs).map Prod.snd).sum
        + (if s.cta = "" then 0 else t.cta_dur) := by
  unfold buildScenes
  by_cases hh : s.hook = ""
  · by_cases hc : s.cta = "" <;> simp [hh, hc, foldl_sceneStep_time]
  · by_cases hc : s.cta = "" <;> simp [hh, hc, foldl_sceneStep_time]

/-- C3 (amended): on the no-metadata estimation path with a positive
estimated total, a bullet section with empty text receives duration 0
(it contributes zero weight to the word-proportional allocation) and its
timeline slot is a zero-length placeholder: the compositor's step for an
empty bullet of duration 0 leaves the running time unchanged (no gap) while
appending exactly one zero-length placeholder layer. On the metadata path,
however, an empty-text section lacking a measurement receives the 3.0 s
fallback default instead of 0. -/
theorem estimation_empty_section_zero (s : Script) (d : ℚ) (i : ℕ)
    (clips : List Layer) (cur : ℚ)
    (hpos : 0 < totalEst s) (hi : s.bullets.get? i = some "") :
    (estimateTimings s d).bullet_durs.get? i = some 0
      ∧ (sceneStep (clips, cur) ("", 0)).2 = cur
      ∧ (sceneStep (clips, cur) ("", 0)).1.length = clips.length + 1 := by
  have hblank : isBlank "" = true := by decide
  have h0 : estimate_duration "" = 0 := by
    simp [estimate_duration, show numWords "" = 0 from by decide]
  refine ⟨?_, ?_, ?_⟩
  · simp only [estimateTimings, if_pos hpos]
    rw [List.get?_map, List.get?_map, hi]
    simp [h0]
  · simp [sceneStep, hblank]
  · simp [sceneStep, hblank]

theorem estimation_empty_section_zero_witness :
    (estimateTimings ⟨"go", [""], ""⟩ 12).bullet_durs.get? 0 = some 0
      ∧ (sceneStep (([] : List Layer), (5 : ℚ)) ("", 0)).2 = 5
      ∧ (sceneStep (([] : List Layer), (5 : ℚ)) ("", 0)).1.length
          = ([] : List Layer).length + 1 :=
  estimation_empty_section_zero ⟨"go", [""], ""⟩ 12 0 [] 5
    (by
      have h : totalEst ⟨"go", [""], ""⟩ = 6/11 := by
        simp +decide [totalEst, estimate_duration, numWords, numWordsAux]
        norm_num
      rw [h]
      norm_num)
    (by decide)

/-- C3 (counterexample): on the optimized-metadata path, an empty-text
bullet with no metadata entry receives `estimate_duration_fallback`'s 3.0 s
default, not 0: with hook and cta measured at 5 s and 4 s against a 12 s
narration, the empty bullet's reconciled duration is 3, a non-zero-length
slot. -/
theorem metadata_empty_text_three_seconds :
    (reconcileTimings ⟨"go", [""], "win"⟩ 12
        (some [⟨"hook", 5⟩, ⟨"cta", 4⟩])).bullet_durs = [3]
      ∧ (3 : ℚ) ≠ 0 := by
  constructor
  · have h : resolveTimingsOpt ⟨"go", [""], "win"⟩ 12 [⟨"hook", 5⟩, ⟨"cta", 4⟩]
        = ⟨5, [3], 4⟩ := by
      simp +decide [resolveTimingsOpt, findSection, List.find?, List.enum,
        estimate_duration_fallback, allText]
    show (adjustTimings (resolveTimingsOpt ⟨"go", [""], "win"⟩ 12
        [⟨"hook", 5⟩, ⟨"cta", 4⟩]) 12).bullet_durs = [3]
    rw [h]
    have h2 : adjustTimings ⟨5, [3], 4⟩ 12 = ⟨5, [3], 4⟩ := by
      apply adjustTimings_of_close
      have h1 : totalTimings ⟨5, [3], 4⟩ = 12 := by norm_num [totalTimings]
      rw [h1]
      simp
    rw [h2]
  · norm_num

/-- C10: when the hook text is the empty string the `if hook:` guard emits
no hook scene and does not advance the running time, so the hook's
allocated duration is dropped from the realized timeline; in the
equal-distribution fallback (zero estimated total), where the empty hook is
still allocated duration/N with N = len(bullets) + 2, the realized timeline
total is d * (len(bullets) + (cta ? 1 : 0)) / N, strictly less than the
narration duration. -/
theorem empty_hook_drops_duration (s : Script) (d : ℚ)
    (hh : s.hook = "") (hz : totalEst s = 0) (hd : 0 < d) :
    (buildScenes s (reconcileTimings s d none)).2
        = d * ((s.bullets.length : ℚ) + (if s.cta = "" then 0 else 1))
            / ((s.bullets.length : ℚ) + 2)
      ∧ (buildScenes s (reconcileTimings s d none)).2 < d := by
  have hnot : ¬ 0 < totalEst s := by rw [hz]; exact lt_irrefl 0
  have hmax : max 1 (s.bullets.length + 2) = s.bullets.length + 2 :=
    Nat.max_eq_right (by omega)
  have hcast : ((s.bullets.length + 2 : ℕ) : ℚ) = (s.bullets.length : ℚ) + 2 := by
    push_cast
    ring
  have ht : reconcileTimings s d none
      = ⟨d / ((s.bullets.length : ℚ) + 2),
         List.replicate s.bullets.length (d / ((s.bullets.length : ℚ) + 2)),
         d / ((s.bullets.length : ℚ) + 2)⟩ := by
    show estimateTimings s d = _
    simp [estimateTimings, hnot, hmax, hcast]
  have hL0 : (0:ℚ) ≤ (s.bullets.length : ℚ) := Nat.cast_nonneg _
  have hden : (0:ℚ) < (s.bullets.length : ℚ) + 2 := by linarith
  have hreal : (buildScenes s (reconcileTimings s d none)).2
      = (s.bullets.length : ℚ) * (d / ((s.bullets.length : ℚ) + 2))
        + (if s.cta = "" then 0 else d / ((s.bullets.length : ℚ) + 2)) := by
    rw [ht, buildScenes_time, zip_replicate_snd, List.sum_replicate, nsmul_eq_mul]
    simp [hh]
  constructor
  · rw [hreal]
    by_cases hc : s.cta = "" <;> simp only [hc, if_pos, if_neg] <;> field_simp <;> ring
  · rw [hreal]
    by_cases hc : s.cta = ""
    · simp only [hc, if_pos, add_zero]
      rw [← mul_div_assoc, div_lt_iff hden]
      nlinarith
    · rw [if_neg hc]
      rw [← mul_div_assoc, div_add_div_same, div_lt_iff hden]
      nlinarith

theorem empty_hook_drops_duration_witness :
    (buildScenes ⟨"", [""], ""⟩ (reconcileTimings ⟨"", [""], ""⟩ 12 none)).2
        = 12 * (((Script.mk "" [""] "").bullets.length : ℚ)
              + (if (Script.mk "" [""] "").cta = "" then 0 else 1))
            / (((Script.mk "" [""] "").bullets.length : ℚ) + 2)
      ∧ (buildScenes ⟨"", [""], ""⟩ (reconcileTimings ⟨"", [""], ""⟩ 12 none)).2 < 12 :=
  empty_hook_drops_duration ⟨"", [""], ""⟩ 12 rfl
    (by simp +decide [totalEst, estimate_duration, numWords, numWordsAux])
    (by norm_num)

/-- C6: the validator's sync branch classifies the drift exactly as the
spec's thresholds prescribe - PERFECT below 50 ms, EXCELLENT from 50 ms up
to (excluding) 500 ms, and the warning class (the spec's DEGRADED, labelled
ACCEPTABLE in the report) at 500 ms and beyond - and this branch never
touches the errors list, so the validator's outcome is unchanged by any
drift: the video is still produced. -/
theorem sync_classification_matches_spec (r : Report) (v a : ℚ) (strict : Bool) :
    ((audioSyncStep r v a).1 = "PERFECT"
        ↔ specSyncClassification (driftMs v a) = SyncClassification.PERFECT)
      ∧ ((audioSyncStep r v a).1 = "EXCELLENT"
          ↔ specSyncClassification (driftMs v a) = SyncClassification.EXCELLENT)
      ∧ ((audioSyncStep r v a).1 = "ACCEPTABLE"
          ↔ specSyncClassification (driftMs v a) = SyncClassification.DEGRADED)
      ∧ (audioSyncStep r v a).2.errors = r.errors
      ∧ validateOk strict ((audioSyncStep r v a).2) = validateOk strict r := by
  simp only [audioSyncStep, specSyncClassification, driftMs]
  by_cases h1 : |v - a| < 1/20
  · have h1' : |v - a| * 1000 < 50 := by linarith
    rw [if_pos h1, if_pos h1']
    simp +decide
  · have h1' : ¬ |v - a| * 1000 < 50 := by
      intro hc
      exact h1 (by linarith)
    by_cases h2 : |v - a| < 1/2
    · have h2' : |v - a| * 1000 < 500 := by linarith
      rw [if_neg h1, if_neg h1', if_pos h2, if_pos h2']
      simp +decide
    · have h2' : ¬ |v - a| * 1000 < 500 := by
        intro hc
        exact h2 (by linarith)
      rw [if_neg h1, if_neg h1', if_neg h2, if_neg h2']
      simp +decide [validateOk]
